import Mathlib

/-!
Shallow embedding of the QA MCP server's prompt-construction layer, analysis
handlers, Jira workflow orchestration and tool dispatch layer, translated from
`src/qa_mcp/prompts.py`, `src/qa_mcp/handlers.py`, `src/qa_mcp/clients/jira.py`
and `src/qa_mcp/server.py`.  Python dictionaries holding request/ticket data are
modelled as structures of `Option` fields (`None`/absent key = `none`,
`dict.get(k, d)` = `Option.getD`); external HTTP calls are modelled as oracle
functions passed in as parameters; a Python exception is an `Except.error`
carrying the exception message.
-/

namespace QaMcp

/-- Single-quote character (U+0027), used to render Python string reprs and
the quoted ticket keys appearing in handler error messages. -/
def sq : String := String.singleton (Char.ofNat 39)

/-- Rendering of a Python `list[str]` as `str(list(...))` renders it, e.g.
`[` `pass` `, ` `fail` `]` with each element single-quoted. -/
def pyListRepr (xs : List String) : String :=
  "[" ++ String.intercalate ", " (xs.map (fun s => sq ++ s ++ sq)) ++ "]"

/-- Python `str(x)` on an optional string: `None` renders as the text None. -/
def pyStr (o : Option String) : String := o.getD "None"

/-- Python `str.lower()`, character-wise (structurally computable version of
`String.toLower`, with which it agrees definitionally on `String.mk`). -/
def pyLower (s : String) : String := String.mk (s.data.map Char.toLower)

/-- Python `a or b` on two optional strings (both `None` and the empty string
are falsy). -/
def pyOr (a b : Option String) : Option String :=
  match a with
  | some s => if s = "" then b else some s
  | none => b

/-! ## Data model: ticket/request dictionaries (`request_data` / `ticket_data`) -/

/-- One comment dictionary as the handlers consume it: `author` and `content`
keys, each possibly absent. -/
structure TicketComment where
  author : Option String
  content : Option String
deriving DecidableEq, Repr

/-- A loosely structured request/ticket dictionary.  Each field models one key
the source reads with `.get`; `none` means the key is absent. -/
structure TicketData where
  ticketKey : Option String
  title : Option String
  description : Option String
  issueType : Option String
  comments : Option (List TicketComment)
  team : Option String
  assignedTeam : Option String
  status : Option String
  epicKey : Option String
  primaryOwningTeam : Option String
deriving DecidableEq, Repr

/-- The empty dictionary. -/
def emptyTd : TicketData := ⟨none, none, none, none, none, none, none, none, none, none⟩

/-- A dictionary holding only the ticket key, as in the spec's "missing every
optional field" scenario. -/
def onlyKeyTd (k : String) : TicketData :=
  ⟨some k, none, none, none, none, none, none, none, none, none⟩

/-- Replace the comments entry of a ticket dictionary, all other keys kept. -/
def withComments (td : TicketData) (cs : Option (List TicketComment)) : TicketData :=
  ⟨td.ticketKey, td.title, td.description, td.issueType, cs,
   td.team, td.assignedTeam, td.status, td.epicKey, td.primaryOwningTeam⟩

/-! ## `prompts.py`: Persona enumeration and registry -/

/-- The `Persona` enumeration of `prompts.py` (9 variants). -/
inductive Persona where
  | SENIOR_QA
  | SENIOR_DEV
  | SENIOR_PO
  | DEVELOPMENT_TEAM
  | SCRUM_MASTER
  | BUSINESS_ANALYST
  | SECURITY_ENGINEER
  | DEVOPS_ENGINEER
  | TECHNICAL_LEADER
deriving DecidableEq, Repr, BEq

/-- The string value of each `Persona` enum member. -/
def Persona.value : Persona → String
  | .SENIOR_QA => "Senior QA Technical Lead"
  | .SENIOR_DEV => "Senior Developer Technical Lead"
  | .SENIOR_PO => "Senior Product Owner"
  | .DEVELOPMENT_TEAM => "Senior development team"
  | .SCRUM_MASTER => "Senior Scrum Master"
  | .BUSINESS_ANALYST => "Senior Business Analyst"
  | .SECURITY_ENGINEER => "Senior Security Engineer"
  | .DEVOPS_ENGINEER => "Senior Devops Engineer"
  | .TECHNICAL_LEADER => "Senior Technical Lead"

/-- A persona registry entry: the two text blocks. -/
structure PersonaContext where
  introduction : String
  style_guide : String
deriving DecidableEq, Repr

/-- A template registry entry: the two text blocks. -/
structure TemplateContext where
  instructions : String
  output_format : String
deriving DecidableEq, Repr

def seniorQaContext : PersonaContext :=
  ⟨"You are a Senior QA Engineer with 8+ years of experience in software testing, test automation, and quality assurance. You have deep expertise in:\n- Test strategy and planning\n- Test case design and execution\n- Risk assessment and mitigation\n- Quality metrics and reporting\n- Test automation frameworks\n- Performance and security testing",
   "Provide analysis that is:\n- Thorough and methodical\n- Risk-focused with mitigation strategies\n- Includes specific test scenarios and cases\n- Considers edge cases and boundary conditions\n- Emphasizes quality gates and acceptance criteria\n- Uses testing terminology and best practices"⟩

def seniorDevContext : PersonaContext :=
  ⟨"You are a Senior Software Developer with 10+ years of experience in software architecture, design patterns, and implementation best practices.",
   "Provide analysis that is technically detailed and accurate."⟩

def seniorPoContext : PersonaContext :=
  ⟨"You are a Senior Product Owner with 7+ years of experience in product development, requirements analysis, and stakeholder communication.",
   "Provide analysis that is business-value focused and user-centric."⟩

def developmentTeamContext : PersonaContext :=
  ⟨"You represent a cross-functional Development Team with collective expertise in development, testing, design, and delivery.",
   "Provide analysis that is collaborative and team-oriented."⟩

def scrumMasterContext : PersonaContext :=
  ⟨"You are an experienced Scrum Master with 6+ years of experience in Agile coaching and team facilitation.",
   "Provide analysis that is process and workflow focused."⟩

def businessAnalystContext : PersonaContext :=
  ⟨"You are a Senior Business Analyst with 8+ years of experience in requirements analysis and stakeholder communication.",
   "Provide analysis that is process and workflow oriented."⟩

def technicalLeaderContext : PersonaContext :=
  ⟨"You are a Senior Technical Lead with deep expertise in debugging, root cause analysis, and system architecture.",
   "Provide analysis that is technically rigorous and actionable."⟩

/-- `PromptBuilder._define_personas`: the persona registry as built at
construction.  Note it holds entries for 7 of the 9 enum variants only:
`SECURITY_ENGINEER` and `DEVOPS_ENGINEER` have no entry. -/
def definePersonas : List (Persona × PersonaContext) :=
  [(Persona.SENIOR_QA, seniorQaContext),
   (Persona.SENIOR_DEV, seniorDevContext),
   (Persona.SENIOR_PO, seniorPoContext),
   (Persona.DEVELOPMENT_TEAM, developmentTeamContext),
   (Persona.SCRUM_MASTER, scrumMasterContext),
   (Persona.BUSINESS_ANALYST, businessAnalystContext),
   (Persona.TECHNICAL_LEADER, technicalLeaderContext)]

def testCasesTpl : TemplateContext :=
  ⟨"Generate 8-12 comprehensive test cases for the ticket. Cover:\n\n1. **Happy Path** - Main user flows and expected behavior\n2. **Edge Cases** - Boundaries, empty/invalid inputs, and unusual conditions\n3. **Error Handling** - Invalid actions, system errors, and fallback behavior\n4. **Integration / E2E** - Cross-system workflows and complete user journeys\n\nEach test case should be specific, verifiable, and aligned with the ticket" ++ sq ++ "s goals.",
   "Format each test case as:\n**Scenario: [Title]**\n- **Given:** [Setup or context]\n- **When:** [Action taken]\n- **Then:** [Expected outcome]\n- **Priority:** [High/Medium/Low]"⟩

def commentSummaryTpl : TemplateContext :=
  ⟨"Summarize the Jira ticket comments. Extract:\n- Decisions made\n- Questions raised or resolved\n- Blockers or dependencies\n- Notable contributors",
   "Start with: Summary Of Comments In This Ticket\nFormat as a bullet list of key insights."⟩

def rootCauseTpl : TemplateContext :=
  ⟨"Perform a Root Cause Analysis (RCA) for the bug. Structure your analysis:\n\n**Root Cause** - What went wrong at a technical or process level\n**Contributing Factors** - Conditions that enabled the issue\n**Preventive Actions** - Steps to avoid recurrence",
   "Format using markdown:\n### Jira Ticket Overview\n### Root Cause\n### Contributing Factors\n### Preventive Actions"⟩

def reproStepsTpl : TemplateContext :=
  ⟨"Write clear reproduction steps for the bug:\n\n**Environment Details** - Where the issue occurs\n**Step-by-Step Instructions** - Clear, sequential actions\n**Expected vs. Actual Behavior** - What should and does happen",
   "Format as:\n### Environment\n### Steps to Reproduce\n### Expected vs. Actual"⟩

def epicAnalysisTpl : TemplateContext :=
  ⟨"Analyze this epic for comprehensive planning:\n\n1. **Epic Scope and Objectives** - Business goals and success criteria\n2. **Story Breakdown Strategy** - Recommended decomposition\n3. **Release Planning Approach** - MVP and phased delivery\n4. **Success Metrics** - Key performance indicators",
   "Format as a comprehensive epic analysis with strategic recommendations."⟩

def defaultTpl : TemplateContext :=
  ⟨"Analyze this Jira ticket and provide comprehensive insights.",
   "Provide a structured analysis with clear sections."⟩

/-- `PromptBuilder._define_templates`: the analysis-template registry. -/
def defineTemplates : List (String × TemplateContext) :=
  [("test-cases", testCasesTpl),
   ("comment-summary", commentSummaryTpl),
   ("root-cause-analysis", rootCauseTpl),
   ("reproduction-steps", reproStepsTpl),
   ("epic-analysis", epicAnalysisTpl),
   ("default", defaultTpl)]

/-! ## `prompts.py`: PromptBuilder operations -/

/-- Truncation applied to each comment body inside the ticket-context loop:
bodies longer than 200 characters are cut to the first 200 with an ellipsis
appended (`content[:200] + "..."`). -/
def truncateContent (s : String) : String :=
  if s.length > 200 then s.take 200 ++ "..." else s

/-- The comment loop of `_format_ticket_context` (and the identical loop of
`StoryAnalysisHandler.handle`): `enumerate(comments, i)` with each line
`i. author: content\n`, author defaulting to Unknown and the body truncated. -/
def renderComments (i : Nat) : List TicketComment → String
  | [] => ""
  | c :: rest =>
    toString i ++ ". " ++ c.author.getD "Unknown" ++ ": "
      ++ truncateContent (c.content.getD "") ++ "\n" ++ renderComments (i + 1) rest

/-- The fixed ticket-information block of `_format_ticket_context`, built from
the four scalar fields with their `.get` defaults. -/
def ticketContextBase (td : TicketData) : String :=
  "\n**Ticket Information:**\n- **Key:** " ++ td.ticketKey.getD "Unknown"
    ++ "\n- **Title:** " ++ td.title.getD "No title provided"
    ++ "\n- **Type:** " ++ td.issueType.getD "story"
    ++ "\n- **Description:** " ++ td.description.getD "No description available" ++ "\n"

/-- `PromptBuilder._format_ticket_context` (the unused `context` parameter of
the source is omitted): the ticket-information block, plus, when the comment
list is non-empty, a Recent Comments section over the first 3 comments. -/
def formatTicketContext (td : TicketData) : String :=
  let comments := td.comments.getD []
  if comments.isEmpty then ticketContextBase td
  else
    ticketContextBase td ++ "\n**Recent Comments:**\n"
      ++ renderComments 1 (comments.take 3)

/-- `PromptBuilder._get_fallback_prompt`. -/
def getFallbackPrompt (td : TicketData) (analysis_type : String) : String :=
  "Analyze the following Jira ticket for " ++ analysis_type ++ ":\n\nTicket: "
    ++ td.ticketKey.getD "Unknown" ++ "\nTitle: " ++ td.title.getD "No title"
    ++ "\nDescription: " ++ td.description.getD "No description provided"
    ++ "\n\nPlease provide a detailed " ++ analysis_type
    ++ " analysis with specific recommendations."

/-- `PromptBuilder.build_analysis_prompt`.  For dictionary-typed ticket data no
operation in the `try` body can raise (all dictionary reads use `.get` with
defaults and both registry fallbacks exist), so the embedding is the `try`
body; the `except` branch returning `_get_fallback_prompt` is unreachable. -/
def build_analysis_prompt (td : TicketData) (analysis_type : String) (persona : Persona) : String :=
  let persona_context :=
    (definePersonas.lookup persona).getD
      ((definePersonas.lookup Persona.SENIOR_QA).get (by decide))
  let template :=
    (defineTemplates.lookup analysis_type).getD
      ((defineTemplates.lookup "default").get (by decide))
  let ticket_context := formatTicketContext td
  persona_context.introduction ++ "\n\n" ++ template.instructions ++ "\n\n"
    ++ ticket_context ++ "\n\n" ++ template.output_format ++ "\n\n"
    ++ persona_context.style_guide

/-- `PromptBuilder.build_story_analysis_prompt`: returns only the persona
introduction (falling back to the DEVELOPMENT_TEAM persona on a miss); the
ticket data is unused on the non-raising path. -/
def build_story_analysis_prompt (_td : TicketData) (persona : Persona) : String :=
  ((definePersonas.lookup persona).getD
    ((definePersonas.lookup Persona.DEVELOPMENT_TEAM).get (by decide))).introduction

/-- `build_test_cases_prompt` convenience wrapper. -/
def build_test_cases_prompt (td : TicketData) (persona : Persona) : String :=
  build_analysis_prompt td "test-cases" persona

/-- `build_comment_summary_prompt` convenience wrapper. -/
def build_comment_summary_prompt (td : TicketData) : String :=
  build_analysis_prompt td "comment-summary" Persona.BUSINESS_ANALYST

/-- `build_root_cause_prompt` convenience wrapper. -/
def build_root_cause_prompt (td : TicketData) (persona : Persona) : String :=
  build_analysis_prompt td "root-cause-analysis" persona

/-- `build_reproduction_steps_prompt` convenience wrapper. -/
def build_reproduction_steps_prompt (td : TicketData) (persona : Persona) : String :=
  build_analysis_prompt td "reproduction-steps" persona

/-! ## `handlers.py`: analysis handlers

The AI client's `ask_openai` is an oracle `AskFn`; `Except.error msg` models a
raised exception with message `msg`, and the empty string models a falsy
(`None` or empty) response, since both take the same branch under
`if result:`.  A handler's return type `Except String String` distinguishes a
normal return (`Except.ok`) from an exception propagating out of the handler
(`Except.error`). -/

abbrev AskFn := String → Except String String

/-- The error string produced by the `except` branch of the four per-ticket
handlers: `Error generating <kind> for <quoted key>: <message>`. -/
def errGen (kind ticket_key msg : String) : String :=
  "Error generating " ++ kind ++ " for " ++ sq ++ ticket_key ++ sq ++ ": " ++ msg

/-- `TestCasesHandler.handle_test_cases`. -/
def handle_test_cases (ai : Option AskFn) (request_data : TicketData) :
    Except String String :=
  let ticket_key := request_data.ticketKey.getD ""
  let prompt := build_test_cases_prompt request_data Persona.SENIOR_QA
  match ai with
  | some ask =>
    match ask prompt with
    | Except.ok result =>
      if result ≠ "" then Except.ok result
      else Except.ok ("Unable to generate test cases for " ++ ticket_key)
    | Except.error e => Except.ok (errGen "test cases" ticket_key e)
  | none => Except.ok ("Unable to generate test cases for " ++ ticket_key)

/-- `RootCauseHandler.handle_root_cause`. -/
def handle_root_cause (ai : Option AskFn) (request_data : TicketData) :
    Except String String :=
  let ticket_key := request_data.ticketKey.getD ""
  let prompt := build_root_cause_prompt request_data Persona.TECHNICAL_LEADER
  match ai with
  | some ask =>
    match ask prompt with
    | Except.ok result =>
      if result ≠ "" then Except.ok result
      else Except.ok ("Unable to generate root cause analysis for " ++ ticket_key)
    | Except.error e => Except.ok (errGen "root cause analysis" ticket_key e)
  | none => Except.ok ("Unable to generate root cause analysis for " ++ ticket_key)

/-- `ReproductionStepsHandler.handle_reproduction_steps`. -/
def handle_reproduction_steps (ai : Option AskFn) (request_data : TicketData) :
    Except String String :=
  let ticket_key := request_data.ticketKey.getD ""
  let prompt := build_reproduction_steps_prompt request_data Persona.TECHNICAL_LEADER
  match ai with
  | some ask =>
    match ask prompt with
    | Except.ok result =>
      if result ≠ "" then Except.ok result
      else Except.ok ("Unable to generate reproduction steps for " ++ ticket_key)
    | Except.error e => Except.ok (errGen "reproduction steps" ticket_key e)
  | none => Except.ok ("Unable to generate reproduction steps for " ++ ticket_key)

/-- Oracle for `jira_client.fetch_issue_details` as used by the comment-summary
handler: returns the issue dictionary (whose `comments` key is read). -/
abbrev FetchFn := String → Except String TicketData

/-- `CommentSummaryHandler.handle_comment_summary`: fetches comments from the
tracker when the request carries none, then builds and submits the prompt;
every exception in the `try` body is converted to the `errGen` string. -/
def handle_comment_summary (ai : Option AskFn) (jira : Option FetchFn)
    (request_data : TicketData) : Except String String :=
  let ticket_key := request_data.ticketKey.getD ""
  let comments0 := request_data.comments.getD []
  let fetched : Except String (List TicketComment) :=
    if comments0.isEmpty then
      match jira with
      | some fetch =>
        match fetch ticket_key with
        | Except.ok issue => Except.ok (issue.comments.getD [])
        | Except.error e => Except.error e
      | none => Except.ok comments0
    else Except.ok comments0
  match fetched with
  | Except.error e => Except.ok (errGen "comment summary" ticket_key e)
  | Except.ok comments =>
    if comments.isEmpty then Except.ok ("No comments found for " ++ ticket_key)
    else
      let ticket_data : TicketData :=
        ⟨some ticket_key, some (request_data.title.getD ""),
         some (request_data.description.getD ""), none, some comments,
         none, none, none, none, none⟩
      let prompt := build_comment_summary_prompt ticket_data
      match ai with
      | some ask =>
        match ask prompt with
        | Except.ok result =>
          if result ≠ "" then Except.ok result
          else Except.ok ("Unable to generate comment summary for " ++ ticket_key)
        | Except.error e => Except.ok (errGen "comment summary" ticket_key e)
      | none => Except.ok ("Unable to generate comment summary for " ++ ticket_key)

/-! ### Story analysis handler -/

/-- Oracle for `jira_client.jira.issue(key)` restricted to what
`check_fix_version` reads from it: the list of fix-version entries, each
carrying an optional `name`. -/
abbrev FixVersionFn := String → Except String (List (Option String))

/-- `StoryAnalysisHandler.check_fix_version`: the three-way diagnostic plus its
own exception guard.  The second component models the Python tuple's second
slot: `none` (None), `Sum.inl` a list of names, or `Sum.inr` a single name. -/
def check_fix_version (jiraIssue : FixVersionFn) (ticket : TicketData) :
    String × Option (List String ⊕ String) :=
  match jiraIssue (ticket.ticketKey.getD "N/A") with
  | Except.error _ => ("Could not check fix version", none)
  | Except.ok fix_versions =>
    if fix_versions.isEmpty then ("Missing fix version", none)
    else if fix_versions.length > 1 then
      ("Multiple fix versions", some (Sum.inl (fix_versions.map (fun fv => fv.getD "N/A"))))
    else ("Fix version is valid", some (Sum.inr (fix_versions.headI.getD "")))

/-- The fix-version suffix appended to the story prompt; `if check_result[1]:`
is a Python truthiness test, so an empty list or empty string is skipped. -/
def fixVersionSuffix (check_result : String × Option (List String ⊕ String)) : String :=
  "\n\n**Fix Version Check:** " ++ check_result.1
    ++ match check_result.2 with
       | some (Sum.inl names) =>
         if names.isEmpty then "" else "\n**Fix Versions:** " ++ String.intercalate ", " names
       | some (Sum.inr name) =>
         if name = "" then "" else "\n**Fix Version:** " ++ name
       | none => ""

/-- `StoryAnalysisHandler.handle`.  Unlike the other handlers this method has
no `try`/`except`, so an exception from the model call propagates to the
caller (`Except.error`). -/
def storyAnalysisHandle (ai : AskFn) (jiraIssue : FixVersionFn)
    (ticket_data : TicketData) : Except String String :=
  let ticket_key := ticket_data.ticketKey.getD "N/A"
  let title := ticket_data.title.getD ""
  let description := ticket_data.description.getD ""
  let team0 := ticket_data.team.getD ""
  let team := if team0 = "" then ticket_data.assignedTeam.getD "" else team0
  let status := ticket_data.status.getD ""
  let comments := ticket_data.comments.getD []
  let issue_type := ticket_data.issueType.getD "story"
  let comment_text := renderComments 1 (comments.take 3)
  let prompt0 := build_story_analysis_prompt ticket_data Persona.DEVELOPMENT_TEAM
  let prompt1 := prompt0
    ++ "Analyze the following Jira story and provide a structured analysis. "
    ++ "Focus on cross-team needs, ambiguities, dependencies, risks, and follow-up questions.\n\n"
    ++ "**Ticket Key:** " ++ ticket_key ++ "\n"
    ++ "**Title:** " ++ title ++ "\n"
    ++ "**Type:** " ++ issue_type ++ "\n"
    ++ "**Team:** " ++ team ++ "\n"
    ++ "**Status:** " ++ status ++ "\n"
    ++ "**Description:** " ++ description ++ "\n\n"
    ++ "**Recent Comments:**\n"
    ++ (if comment_text ≠ "" then comment_text else "No recent comments.") ++ "\n\n"
    ++ "---\n"
    ++ "## Story Analysis\n"
    ++ "### 1. Cross-Team Coordination\n"
    ++ "### 2. Ambiguities & Scope\n"
    ++ "### 3. Dependencies & Blockers\n"
    ++ "### 4. Risks & Issues\n"
    ++ "### 5. Testability & Acceptance\n"
    ++ "### 6. Follow-Up Questions\n"
  let check_result := check_fix_version jiraIssue ticket_data
  let prompt2 := prompt1 ++ fixVersionSuffix check_result
  match ai prompt2 with
  | Except.error e => Except.error e
  | Except.ok r => Except.ok (if r ≠ "" then r.trim else "")

/-! ### Epic analysis handler -/

/-- One element of the tracker's JQL result list, holding the `key` entry the
handler reads. -/
structure EpicIssue where
  key : Option String
deriving DecidableEq, Repr

/-- What `fetch_issue_details` returns for a child issue, restricted to the
three keys the epic handler reads. -/
structure ChildDetails where
  title : Option String
  status : Option String
  assigned_teams : Option String
deriving DecidableEq, Repr

/-- Oracle for `jira_client.jira.jql(query).get("issues", [])`. -/
abbrev JqlFn := String → Except String (List EpicIssue)

/-- Oracle for `jira_client.fetch_issue_details(issue_key)` in the epic
handler (the key may be absent from the JQL result dictionary). -/
abbrev DetailsFn := Option String → Except String ChildDetails

/-- The `tickets_info` entry built for one child issue. -/
structure EpicTicketInfo where
  key : Option String
  title : String
  status : String
  team : String
deriving DecidableEq, Repr

/-- One line of the rendered story list:
`- [key] title (Status: status, Team: team)`. -/
def epicBullet (t : EpicTicketInfo) : String :=
  "- [" ++ pyStr t.key ++ "] " ++ t.title ++ " (Status: " ++ t.status
    ++ ", Team: " ++ t.team ++ ")"

/-- The `for issue in epic_issues[:20]` loop body applied to an
already-truncated list: fetch each child's details in order, stopping at the
first fetch exception.  Returns the keys passed to `fetch_issue_details`, in
call order, alongside the accumulated `tickets_info`. -/
def epicFetchLoop (fetch : DetailsFn) :
    List EpicIssue → List (Option String) × Except String (List EpicTicketInfo)
  | [] => ([], Except.ok [])
  | i :: rest =>
    match fetch i.key with
    | Except.error e => ([i.key], Except.error e)
    | Except.ok d =>
      let tail := epicFetchLoop fetch rest
      (i.key :: tail.1,
       match tail.2 with
       | Except.error e => Except.error e
       | Except.ok infos =>
         Except.ok (⟨i.key, d.title.getD "", d.status.getD "", d.assigned_teams.getD ""⟩ :: infos))

/-- Instrumented run of `EpicAnalysisHandler.handle_epic_analysis`: alongside
the returned string it records which keys were passed to
`fetch_issue_details` and the rendered bullet lines whose newline join is
embedded into the prompt (both empty on the error paths). -/
structure EpicRun where
  fetched : List (Option String)
  bulletLines : List String
  result : String
deriving DecidableEq, Repr

/-- `EpicAnalysisHandler.handle_epic_analysis` (instrumented).  The whole body
sits in one `try`; any exception from the JQL query, a detail fetch or the
model call becomes the `Error analyzing epic <key>: <message>` string. -/
def handle_epic_analysis_run (jql : JqlFn) (fetch : DetailsFn) (ai : AskFn)
    (request_data : TicketData) : EpicRun :=
  let epic_key := pyStr (pyOr request_data.epicKey request_data.ticketKey)
  let primary_team := request_data.primaryOwningTeam.getD ""
  let epic_title := request_data.title.getD ""
  let jql_query := "\"Epic Link\" = " ++ epic_key
  match jql jql_query with
  | Except.error e => ⟨[], [], "Error analyzing epic " ++ epic_key ++ ": " ++ e⟩
  | Except.ok epic_issues =>
    let looped := epicFetchLoop fetch (epic_issues.take 20)
    match looped.2 with
    | Except.error e => ⟨looped.1, [], "Error analyzing epic " ++ epic_key ++ ": " ++ e⟩
    | Except.ok tickets_info =>
      let bullets := tickets_info.map epicBullet
      let tickets_text := String.intercalate "\n" bullets
      let prompt := "Analyze the following epic and its stories:\n\n**Epic:** "
        ++ epic_key ++ " - " ++ epic_title ++ "\n**Primary Team:** " ++ primary_team
        ++ "\n\n**Stories:**\n" ++ tickets_text
        ++ "\n\nProvide:\n"
        ++ "1. Cross-team dependencies (stories requiring teams other than the primary)\n"
        ++ "2. Stories with unclear scope\n"
        ++ "3. Dependencies and blockers\n"
        ++ "4. Risks and issues\n"
        ++ "5. Summary and recommendations\n"
      let result :=
        match ai prompt with
        | Except.error e => "Error analyzing epic " ++ epic_key ++ ": " ++ e
        | Except.ok r => if r ≠ "" then r else "Unable to analyze epic " ++ epic_key
      ⟨looped.1, bullets, result⟩

/-- `handle_epic_analysis` as the caller sees it: the returned string, always a
normal return thanks to the handler-wide `try`/`except`. -/
def handle_epic_analysis (jql : JqlFn) (fetch : DetailsFn) (ai : AskFn)
    (request_data : TicketData) : Except String String :=
  Except.ok (handle_epic_analysis_run jql fetch ai request_data).result

/-! ## `clients/jira.py`: configuration, primitive calls and workflows

The configuration tables are transcribed from `config_example.py` (the
configuration shape the client imports).  A test-result option value is either
an id payload or a value payload; HTTP calls are modelled by a `Tracker`
oracle mapping each outbound call to `none` (2xx) or `some message`
(`raise_for_status` raising with that message).  A raised Python exception is
a `PyErr`: `valueError` for the fail-fast validation errors, `httpError` for
transport errors. -/

/-- A `TEST_RESULT_VALUES` entry: `{"id": ...}` or `{"value": ...}`. -/
inductive FieldOptionValue where
  | byId (id : String)
  | byValue (v : String)
deriving DecidableEq, Repr

/-- `TEST_RESULT_VALUES` from `config_example.py` (insertion order kept). -/
def TEST_RESULT_VALUES : List (String × FieldOptionValue) :=
  [("pass", FieldOptionValue.byId "XXXXX"),
   ("fail", FieldOptionValue.byId "XXXXX"),
   ("in_progress", FieldOptionValue.byId "XXXXX"),
   ("blocked", FieldOptionValue.byValue "Blocked"),
   ("not_tested", FieldOptionValue.byValue "Not Tested")]

/-- `JIRA_TRANSITIONS` from `config_example.py` (insertion order kept). -/
def JIRA_TRANSITIONS : List (String × String) :=
  [("backlog", "XXX"),
   ("open", "XXX"),
   ("in_progress", "XXX"),
   ("resolved", "XXX"),
   ("closed", "XXX"),
   ("reopened", "XXX")]

/-- One outbound Jira REST call issued by the client's mutating methods. -/
inductive JiraCall where
  | assign (issue_key username : String)
  | setValidatorField (issue_key username : String)
  | setTestResultField (issue_key : String) (value : FieldOptionValue)
  | addCommentCall (issue_key body : String)
  | transitionCall (issue_key transition_id : String)
deriving DecidableEq, Repr

/-- A raised exception in the Jira client layer. -/
inductive PyErr where
  | valueError (msg : String)
  | httpError (msg : String)
deriving DecidableEq, Repr

/-- HTTP oracle: `none` means the call succeeded, `some msg` means
`raise_for_status` raised an HTTP error with message `msg`. -/
abbrev Tracker := JiraCall → Option String

/-- The all-success tracker. -/
def allOkTr : Tracker := fun _ => none

/-- Lift a tracker outcome into the exception model. -/
def httpOutcome (o : Option String) : Except PyErr Unit :=
  match o with
  | none => Except.ok ()
  | some m => Except.error (PyErr.httpError m)

/-- `JiraClient.assign_issue`: one PUT to the assignee endpoint.  The first
component is the list of calls issued. -/
def assign_issue (tr : Tracker) (issue_key username : String) :
    List JiraCall × Except PyErr Unit :=
  let c := JiraCall.assign issue_key username
  ([c], httpOutcome (tr c))

/-- `JiraClient.set_validator`: one PUT writing the validator custom field. -/
def set_validator (tr : Tracker) (issue_key username : String) :
    List JiraCall × Except PyErr Unit :=
  let c := JiraCall.setValidatorField issue_key username
  ([c], httpOutcome (tr c))

/-- The `ValueError` message of `set_test_result`:
`Invalid test result: <result>. Must be one of <keys>`. -/
def invalidTestResultMsg (result : String) : String :=
  "Invalid test result: " ++ result ++ ". Must be one of "
    ++ pyListRepr (TEST_RESULT_VALUES.map Prod.fst)

/-- `JiraClient.set_test_result`: validates `result.lower()` against the
configured keys before issuing any call, then PUTs the mapped option value. -/
def set_test_result (tr : Tracker) (issue_key result : String) :
    List JiraCall × Except PyErr Unit :=
  match TEST_RESULT_VALUES.lookup (pyLower result) with
  | none => ([], Except.error (PyErr.valueError (invalidTestResultMsg result)))
  | some v =>
    let c := JiraCall.setTestResultField issue_key v
    ([c], httpOutcome (tr c))

/-- `JiraClient.add_comment`: one POST to the comment endpoint. -/
def add_comment (tr : Tracker) (issue_key body : String) :
    List JiraCall × Except PyErr Unit :=
  let c := JiraCall.addCommentCall issue_key body
  ([c], httpOutcome (tr c))

/-- The `ValueError` message of `transition_issue`:
`Unknown transition: <name>. Must be one of <keys>`. -/
def unknownTransitionMsg (transition_name : String) : String :=
  "Unknown transition: " ++ transition_name ++ ". Must be one of "
    ++ pyListRepr (JIRA_TRANSITIONS.map Prod.fst)

/-- `JiraClient.transition_issue`: looks up `transition_name.lower()` in the
configured mapping and fails fast when the result is falsy (absent key or
empty id), then POSTs the transition id. -/
def transition_issue (tr : Tracker) (issue_key transition_name : String) :
    List JiraCall × Except PyErr Unit :=
  match JIRA_TRANSITIONS.lookup (pyLower transition_name) with
  | none => ([], Except.error (PyErr.valueError (unknownTransitionMsg transition_name)))
  | some transition_id =>
    if transition_id = "" then
      ([], Except.error (PyErr.valueError (unknownTransitionMsg transition_name)))
    else
      let c := JiraCall.transitionCall issue_key transition_id
      ([c], httpOutcome (tr c))

/-- Run of a multi-step workflow: the calls issued, the `operations` log as
appended so far, and the exception that escaped, if any (`none` means the
method returned its results dictionary with status success). -/
structure WorkflowRun where
  calls : List JiraCall
  operations : List String
  raised : Option PyErr
deriving DecidableEq, Repr

/-- `JiraClient.claim_for_qa`: assign, then set validator, then set the test
result to in_progress, appending one log entry after each completed step and
letting the first exception propagate. -/
def claim_for_qa (tr : Tracker) (issue_key username : String) : WorkflowRun :=
  let s1 := assign_issue tr issue_key username
  match s1.2 with
  | Except.error e => ⟨s1.1, [], some e⟩
  | Except.ok _ =>
    let s2 := set_validator tr issue_key username
    match s2.2 with
    | Except.error e => ⟨s1.1 ++ s2.1, ["assigned"], some e⟩
    | Except.ok _ =>
      let s3 := set_test_result tr issue_key "in_progress"
      match s3.2 with
      | Except.error e => ⟨s1.1 ++ s2.1 ++ s3.1, ["assigned", "validator_set"], some e⟩
      | Except.ok _ =>
        ⟨s1.1 ++ s2.1 ++ s3.1,
         ["assigned", "validator_set", "test_result_in_progress"], none⟩

/-- `JiraClient.resolve_pass`: add the comment, transition to resolved, set
the test result to pass. -/
def resolve_pass (tr : Tracker) (issue_key comment : String) : WorkflowRun :=
  let s1 := add_comment tr issue_key comment
  match s1.2 with
  | Except.error e => ⟨s1.1, [], some e⟩
  | Except.ok _ =>
    let s2 := transition_issue tr issue_key "resolved"
    match s2.2 with
    | Except.error e => ⟨s1.1 ++ s2.1, ["comment_added"], some e⟩
    | Except.ok _ =>
      let s3 := set_test_result tr issue_key "pass"
      match s3.2 with
      | Except.error e =>
        ⟨s1.1 ++ s2.1 ++ s3.1, ["comment_added", "transitioned_to_resolved"], some e⟩
      | Except.ok _ =>
        ⟨s1.1 ++ s2.1 ++ s3.1,
         ["comment_added", "transitioned_to_resolved", "test_result_pass"], none⟩

/-- `JiraClient.fail_and_reopen`: add the comment, transition to reopened, set
the test result to fail. -/
def fail_and_reopen (tr : Tracker) (issue_key comment : String) : WorkflowRun :=
  let s1 := add_comment tr issue_key comment
  match s1.2 with
  | Except.error e => ⟨s1.1, [], some e⟩
  | Except.ok _ =>
    let s2 := transition_issue tr issue_key "reopened"
    match s2.2 with
    | Except.error e => ⟨s1.1 ++ s2.1, ["comment_added"], some e⟩
    | Except.ok _ =>
      let s3 := set_test_result tr issue_key "fail"
      match s3.2 with
      | Except.error e =>
        ⟨s1.1 ++ s2.1 ++ s3.1, ["comment_added", "transitioned_to_reopened"], some e⟩
      | Except.ok _ =>
        ⟨s1.1 ++ s2.1 ++ s3.1,
         ["comment_added", "transitioned_to_reopened", "test_result_fail"], none⟩

/-- The log a three-step workflow accumulates given which steps succeed: the
entries for the longest successful prefix of attempted steps. -/
def logPrefix (b1 b2 b3 : Bool) (e1 e2 e3 : String) : List String :=
  if b1 then if b2 then if b3 then [e1, e2, e3] else [e1, e2] else [e1] else []

/-- Whether a tracker call succeeds. -/
def stepOk (tr : Tracker) (c : JiraCall) : Bool := (tr c).isNone

/-! ## `server.py`: tool dispatch layer (representative tools) -/

/-- The response dictionary of `qa_claim_ticket` on success (the dictionary
`claim_for_qa` returns). -/
structure ClaimResponse where
  issue_key : String
  username : String
  operations : List String
  status : String
deriving DecidableEq, Repr

/-- `qa_claim_ticket`: no `try`/`except` around the client call, so a raised
exception propagates to the caller as-is. -/
def qa_claim_ticket (tr : Tracker) (issue_key username : String) :
    Except PyErr ClaimResponse :=
  let run := claim_for_qa tr issue_key username
  match run.raised with
  | some e => Except.error e
  | none => Except.ok ⟨issue_key, username, run.operations, "success"⟩

/-- The envelope `qa_get_issue_details` delivers: status plus an error string
or the issue payload. -/
structure IssueEnvelope (α : Type) where
  status : String
  error : Option String
  issue : Option α
deriving DecidableEq, Repr

/-- `qa_get_issue_details`: wraps `get_issue_full` (an oracle returning the
issue payload) in `try`/`except`, normalizing every outcome to an envelope. -/
def qa_get_issue_details {α : Type} (get_issue_full : String → Except String α)
    (issue_key : String) : Except String (IssueEnvelope α) :=
  match get_issue_full issue_key with
  | Except.ok issue => Except.ok ⟨"success", none, some issue⟩
  | Except.error e => Except.ok ⟨"error", some e, none⟩

/-- The envelope `qa_transition_ticket` delivers. -/
structure TransitionEnvelope where
  status : String
  error : Option String
  issue_key : Option String
  transitionName : Option String
deriving DecidableEq, Repr

/-- `qa_transition_ticket`: catches `ValueError` (returning its message) and
any other exception (prefixing `Failed to transition: `), so it always
returns an envelope. -/
def qa_transition_ticket (tr : Tracker) (issue_key transition : String) :
    Except PyErr TransitionEnvelope :=
  match (transition_issue tr issue_key transition).2 with
  | Except.ok _ => Except.ok ⟨"success", none, some issue_key, some transition⟩
  | Except.error (PyErr.valueError m) => Except.ok ⟨"error", some m, none, none⟩
  | Except.error (PyErr.httpError m) =>
    Except.ok ⟨"error", some ("Failed to transition: " ++ m), none, none⟩

/-! ## Auxiliary observations used in theorem statements -/

/-- Whether a client call returned normally (no exception). -/
def exceptOkB : Except PyErr Unit → Bool
  | Except.ok _ => true
  | Except.error _ => false

/-- The `tickets_info` entry the epic loop builds for issue `i` when every
detail fetch succeeds with details `d i.key`. -/
def mkEpicInfo (d : Option String → ChildDetails) (i : EpicIssue) : EpicTicketInfo :=
  ⟨i.key, (d i.key).title.getD "", (d i.key).status.getD "", (d i.key).assigned_teams.getD ""⟩

/-! ## Helper lemmas -/

theorem data_head_append (s t : String) (c : Char) (h : s.data.head? = some c) :
    (s ++ t).data.head? = some c := by
  rw [String.data_append]
  cases hs : s.data with
  | nil => rw [hs] at h; simp at h
  | cons a l => rw [hs] at h; simp at h; simp [hs, h]

theorem ne_of_data_head (a b : String) (c₁ c₂ : Char) (h₁ : a.data.head? = some c₁)
    (h₂ : b.data.head? = some c₂) (hne : c₁ ≠ c₂) : a ≠ b := by
  intro h
  rw [h, h₂] at h₁
  exact hne (Option.some.inj h₁).symm

/-- Every id configured in `JIRA_TRANSITIONS` is the (truthy) string XXX. -/
theorem lookup_transitions_val (s i : String) (h : JIRA_TRANSITIONS.lookup s = some i) :
    i = "XXX" := by
  simp only [JIRA_TRANSITIONS, List.lookup] at h
  repeat' split at h
  all_goals simp_all

/-- `set_test_result` at the literal in_progress resolves its validation
lookup and issues exactly the mapped PUT. -/
theorem set_test_result_in_progress (tr : Tracker) (k : String) :
    set_test_result tr k "in_progress" =
      ([JiraCall.setTestResultField k (FieldOptionValue.byId "XXXXX")],
       httpOutcome (tr (JiraCall.setTestResultField k (FieldOptionValue.byId "XXXXX")))) := rfl

theorem set_test_result_pass (tr : Tracker) (k : String) :
    set_test_result tr k "pass" =
      ([JiraCall.setTestResultField k (FieldOptionValue.byId "XXXXX")],
       httpOutcome (tr (JiraCall.setTestResultField k (FieldOptionValue.byId "XXXXX")))) := rfl

theorem set_test_result_fail (tr : Tracker) (k : String) :
    set_test_result tr k "fail" =
      ([JiraCall.setTestResultField k (FieldOptionValue.byId "XXXXX")],
       httpOutcome (tr (JiraCall.setTestResultField k (FieldOptionValue.byId "XXXXX")))) := rfl

theorem transition_resolved (tr : Tracker) (k : String) :
    transition_issue tr k "resolved" =
      ([JiraCall.transitionCall k "XXX"], httpOutcome (tr (JiraCall.transitionCall k "XXX"))) := rfl

theorem transition_reopened (tr : Tracker) (k : String) :
    transition_issue tr k "reopened" =
      ([JiraCall.transitionCall k "XXX"], httpOutcome (tr (JiraCall.transitionCall k "XXX"))) := rfl

/-- The epic fetch loop with an always-succeeding detail oracle visits every
element in order and builds one info record per element. -/
theorem epicFetchLoop_ok (d : Option String → ChildDetails) (l : List EpicIssue) :
    epicFetchLoop (fun kk => Except.ok (d kk)) l =
      (l.map EpicIssue.key, Except.ok (l.map (mkEpicInfo d))) := by
  induction l with
  | nil => rfl
  | cons i rest ih => simp [epicFetchLoop, ih, mkEpicInfo]

/-! ## Claim C4 -/

/-- C4 counterexample: the persona registry is not total over the 9-variant
enumeration — `SECURITY_ENGINEER` has no entry. -/
theorem persona_registry_missing_security : definePersonas.lookup Persona.SECURITY_ENGINEER = none := by
  rfl

/-- C4 (amended): the persona registry defined at construction maps exactly 7
of the 9 persona identifiers — all except `SECURITY_ENGINEER` and
`DEVOPS_ENGINEER` — each to its own distinct pair of text blocks; the two
missing identifiers look up to nothing (callers fall back to a default). -/
theorem persona_registry_seven_of_nine :
    (∀ p : Persona, p = Persona.SECURITY_ENGINEER ∨ p = Persona.DEVOPS_ENGINEER ∨
      (definePersonas.lookup p).isSome = true) ∧
    definePersonas.lookup Persona.SECURITY_ENGINEER = none ∧
    definePersonas.lookup Persona.DEVOPS_ENGINEER = none ∧
    definePersonas.length = 7 ∧
    (definePersonas.map Prod.fst).Nodup ∧
    (definePersonas.map Prod.snd).Nodup := by
  refine ⟨fun p => ?_, rfl, rfl, rfl, by decide, by decide⟩
  cases p
  case SECURITY_ENGINEER => exact Or.inl rfl
  case DEVOPS_ENGINEER => exact Or.inr (Or.inl rfl)
  all_goals exact Or.inr (Or.inr rfl)

/-! ## Claim C5 -/

/-- C5: each workflow's operation log records exactly the completed steps in
attempt order.  With an all-success tracker, Claim-for-QA issues exactly the
three calls assign, set-validator, set-test-result(in_progress) in that order
with log `[assigned, validator_set, test_result_in_progress]`, and
Resolve-as-Pass / Fail-and-Reopen produce their 3-entry logs; for every
tracker, each workflow's log is exactly the entries of the longest successful
prefix of its three steps. -/
theorem workflow_operation_logs (tr : Tracker) (k u body : String) :
    claim_for_qa allOkTr k u =
      ⟨[JiraCall.assign k u, JiraCall.setValidatorField k u,
        JiraCall.setTestResultField k (FieldOptionValue.byId "XXXXX")],
       ["assigned", "validator_set", "test_result_in_progress"], none⟩ ∧
    resolve_pass allOkTr k body =
      ⟨[JiraCall.addCommentCall k body, JiraCall.transitionCall k "XXX",
        JiraCall.setTestResultField k (FieldOptionValue.byId "XXXXX")],
       ["comment_added", "transitioned_to_resolved", "test_result_pass"], none⟩ ∧
    fail_and_reopen allOkTr k body =
      ⟨[JiraCall.addCommentCall k body, JiraCall.transitionCall k "XXX",
        JiraCall.setTestResultField k (FieldOptionValue.byId "XXXXX")],
       ["comment_added", "transitioned_to_reopened", "test_result_fail"], none⟩ ∧
    (claim_for_qa tr k u).operations =
      logPrefix (stepOk tr (JiraCall.assign k u)) (stepOk tr (JiraCall.setValidatorField k u))
        (stepOk tr (JiraCall.setTestResultField k (FieldOptionValue.byId "XXXXX")))
        "assigned" "validator_set" "test_result_in_progress" ∧
    (resolve_pass tr k body).operations =
      logPrefix (stepOk tr (JiraCall.addCommentCall k body))
        (stepOk tr (JiraCall.transitionCall k "XXX"))
        (stepOk tr (JiraCall.setTestResultField k (FieldOptionValue.byId "XXXXX")))
        "comment_added" "transitioned_to_resolved" "test_result_pass" ∧
    (fail_and_reopen tr k body).operations =
      logPrefix (stepOk tr (JiraCall.addCommentCall k body))
        (stepOk tr (JiraCall.transitionCall k "XXX"))
        (stepOk tr (JiraCall.setTestResultField k (FieldOptionValue.byId "XXXXX")))
        "comment_added" "transitioned_to_reopened" "test_result_fail" := by
  refine ⟨rfl, rfl, rfl, ?_, ?_, ?_⟩
  · cases h1 : tr (JiraCall.assign k u) <;>
      cases h2 : tr (JiraCall.setValidatorField k u) <;>
        cases h3 : tr (JiraCall.setTestResultField k (FieldOptionValue.byId "XXXXX")) <;>
          simp [claim_for_qa, assign_issue, set_validator, set_test_result_in_progress,
            httpOutcome, stepOk, logPrefix, h1, h2, h3]
  · cases h1 : tr (JiraCall.addCommentCall k body) <;>
      cases h2 : tr (JiraCall.transitionCall k "XXX") <;>
        cases h3 : tr (JiraCall.setTestResultField k (FieldOptionValue.byId "XXXXX")) <;>
          simp [resolve_pass, add_comment, transition_resolved, set_test_result_pass,
            httpOutcome, stepOk, logPrefix, h1, h2, h3]
  · cases h1 : tr (JiraCall.addCommentCall k body) <;>
      cases h2 : tr (JiraCall.transitionCall k "XXX") <;>
        cases h3 : tr (JiraCall.setTestResultField k (FieldOptionValue.byId "XXXXX")) <;>
          simp [fail_and_reopen, add_comment, transition_reopened, set_test_result_fail,
            httpOutcome, stepOk, logPrefix, h1, h2, h3]

/-! ## Claim C6 -/

/-- C6: a test-result value whose lowercase form is not a configured key, and
a transition name whose lowercase form is not configured, both fail before any
tracker call is issued (empty call list), raising a `ValueError` whose message
lists the configured values. -/
theorem validation_fails_before_calls (tr : Tracker) (k r t : String)
    (hr : TEST_RESULT_VALUES.lookup (pyLower r) = none)
    (ht : JIRA_TRANSITIONS.lookup (pyLower t) = none) :
    set_test_result tr k r = ([], Except.error (PyErr.valueError (invalidTestResultMsg r))) ∧
    invalidTestResultMsg r = "Invalid test result: " ++ r ++ ". Must be one of "
      ++ pyListRepr ["pass", "fail", "in_progress", "blocked", "not_tested"] ∧
    transition_issue tr k t = ([], Except.error (PyErr.valueError (unknownTransitionMsg t))) ∧
    unknownTransitionMsg t = "Unknown transition: " ++ t ++ ". Must be one of "
      ++ pyListRepr ["backlog", "open", "in_progress", "resolved", "closed", "reopened"] := by
  refine ⟨?_, rfl, ?_, rfl⟩
  · simp [set_test_result, hr]
  · simp [transition_issue, ht]

/-- C6 witness at the spec's example value maybe and an unconfigured
transition name. -/
theorem validation_fails_before_calls_witness :
    TEST_RESULT_VALUES.lookup (pyLower "maybe") = none ∧
    JIRA_TRANSITIONS.lookup (pyLower "shipit") = none ∧
    set_test_result allOkTr "TEST-1" "maybe" =
      ([], Except.error (PyErr.valueError (invalidTestResultMsg "maybe"))) ∧
    transition_issue allOkTr "TEST-1" "shipit" =
      ([], Except.error (PyErr.valueError (unknownTransitionMsg "shipit"))) := by
  have h := validation_fails_before_calls allOkTr "TEST-1" "maybe" "shipit" rfl rfl
  exact ⟨rfl, rfl, h.1, h.2.2.1⟩

/-! ## Claim C10 -/

/-- C10: test-result and transition validation depends only on the lowercased
input — the calls issued and the accept/reject outcome agree for any two
inputs with the same lowercase form — and any input whose lowercase form is a
configured key is accepted, issuing exactly the call carrying the configured
value (resp. configured transition id). -/
theorem validation_case_insensitive (tr : Tracker) (k s₁ s₂ : String)
    (h : pyLower s₁ = pyLower s₂) :
    ((set_test_result tr k s₁).1 = (set_test_result tr k s₂).1 ∧
      exceptOkB (set_test_result tr k s₁).2 = exceptOkB (set_test_result tr k s₂).2) ∧
    ((transition_issue tr k s₁).1 = (transition_issue tr k s₂).1 ∧
      exceptOkB (transition_issue tr k s₁).2 = exceptOkB (transition_issue tr k s₂).2) ∧
    (∀ v, TEST_RESULT_VALUES.lookup (pyLower s₁) = some v →
      set_test_result tr k s₁ =
        ([JiraCall.setTestResultField k v], httpOutcome (tr (JiraCall.setTestResultField k v)))) ∧
    (∀ i, JIRA_TRANSITIONS.lookup (pyLower s₁) = some i →
      transition_issue tr k s₁ =
        ([JiraCall.transitionCall k i], httpOutcome (tr (JiraCall.transitionCall k i)))) := by
  refine ⟨?_, ?_, ?_, ?_⟩
  · simp only [set_test_result, h]
    cases hv : TEST_RESULT_VALUES.lookup (pyLower s₂) <;> simp [exceptOkB, httpOutcome]
  · simp only [transition_issue, h]
    cases hv : JIRA_TRANSITIONS.lookup (pyLower s₂) with
    | none => simp [exceptOkB]
    | some i =>
      by_cases hi : i = "" <;> simp [hi, exceptOkB, httpOutcome]
  · intro v hv
    simp [set_test_result, hv]
  · intro i hi
    have hx := lookup_transitions_val _ _ hi
    subst hx
    have hne : ¬ (("XXX" : String) = "") := by decide
    simp [transition_issue, hi, hne]

/-- C10 witness: the uppercase inputs PASS and Resolved are accepted and issue
exactly the calls of their lowercase forms. -/
theorem validation_case_insensitive_witness :
    (pyLower "PASS" = pyLower "pass") ∧
    set_test_result allOkTr "TEST-7" "PASS" =
      ([JiraCall.setTestResultField "TEST-7" (FieldOptionValue.byId "XXXXX")], Except.ok ()) ∧
    transition_issue allOkTr "TEST-7" "Resolved" =
      ([JiraCall.transitionCall "TEST-7" "XXX"], Except.ok ()) := by
  have h1 := validation_case_insensitive allOkTr "TEST-7" "PASS" "pass" rfl
  have h2 := validation_case_insensitive allOkTr "TEST-7" "Resolved" "resolved" rfl
  refine ⟨rfl, ?_, ?_⟩
  · have := h1.2.2.1 (FieldOptionValue.byId "XXXXX") rfl
    simpa [allOkTr, httpOutcome] using this
  · have := h2.2.2.2 "XXX" rfl
    simpa [allOkTr, httpOutcome] using this

/-! ## Claim C7 -/

/-- C7: for any persona and template defined in the registries and any ticket
data, the built prompt is exactly the persona introduction, the template
instructions, the ticket-context block (which contains the ticket key), the
template output format and the persona style guide, in that order, separated
by blank lines. -/
theorem prompt_block_order (td : TicketData) (p : Persona) (t : String)
    (pc : PersonaContext) (tc : TemplateContext)
    (hp : definePersonas.lookup p = some pc)
    (ht : defineTemplates.lookup t = some tc) :
    build_analysis_prompt td t p =
      pc.introduction ++ "\n\n" ++ tc.instructions ++ "\n\n" ++ formatTicketContext td
        ++ "\n\n" ++ tc.output_format ++ "\n\n" ++ pc.style_guide ∧
    ∃ pre post, formatTicketContext td = pre ++ (td.ticketKey.getD "Unknown" ++ post) := by
  constructor
  · simp only [build_analysis_prompt, hp, ht, Option.getD_some]
  · by_cases hc : (td.comments.getD []).isEmpty
    · refine ⟨"\n**Ticket Information:**\n- **Key:** ",
        "\n- **Title:** " ++ td.title.getD "No title provided"
          ++ "\n- **Type:** " ++ td.issueType.getD "story"
          ++ "\n- **Description:** " ++ td.description.getD "No description available"
          ++ "\n", ?_⟩
      simp [formatTicketContext, ticketContextBase, hc, String.append_assoc]
    · refine ⟨"\n**Ticket Information:**\n- **Key:** ",
        "\n- **Title:** " ++ td.title.getD "No title provided"
          ++ "\n- **Type:** " ++ td.issueType.getD "story"
          ++ "\n- **Description:** " ++ td.description.getD "No description available"
          ++ "\n" ++ "\n**Recent Comments:**\n"
          ++ renderComments 1 ((td.comments.getD []).take 3), ?_⟩
      simp [formatTicketContext, ticketContextBase, hc, String.append_assoc]

/-- C7 witness at the default persona/template pair. -/
theorem prompt_block_order_witness :
    definePersonas.lookup Persona.SENIOR_QA = some seniorQaContext ∧
    defineTemplates.lookup "test-cases" = some testCasesTpl ∧
    build_analysis_prompt emptyTd "test-cases" Persona.SENIOR_QA =
      seniorQaContext.introduction ++ "\n\n" ++ testCasesTpl.instructions ++ "\n\n"
        ++ formatTicketContext emptyTd ++ "\n\n" ++ testCasesTpl.output_format ++ "\n\n"
        ++ seniorQaContext.style_guide := by
  exact ⟨rfl, rfl,
    (prompt_block_order emptyTd Persona.SENIOR_QA "test-cases" seniorQaContext testCasesTpl rfl rfl).1⟩

/-! ## Claim C8 -/

/-- C8: the formatted ticket context depends only on the first 3 comments (its
comment section renders exactly `comments.take 3`, in order), bodies longer
than 200 characters are truncated to their first 200 characters plus an
ellipsis, and bodies of at most 200 characters are reproduced verbatim. -/
theorem comments_capped_and_truncated (td : TicketData) (cs : List TicketComment)
    (h1 : td.comments = some cs) (h2 : 3 < cs.length) :
    formatTicketContext td = formatTicketContext (withComments td (some (cs.take 3))) ∧
    formatTicketContext td =
      ticketContextBase td ++ "\n**Recent Comments:**\n" ++ renderComments 1 (cs.take 3) ∧
    (∀ s : String, 200 < s.length → truncateContent s = s.take 200 ++ "...") ∧
    (∀ s : String, s.length ≤ 200 → truncateContent s = s) := by
  have hne : cs ≠ [] := by intro hcs; rw [hcs] at h2; simp at h2
  have hemp : cs.isEmpty = false := by cases cs with
    | nil => exact absurd rfl hne
    | cons a l => rfl
  have hemp3 : (cs.take 3).isEmpty = false := by cases cs with
    | nil => exact absurd rfl hne
    | cons a l => rfl
  refine ⟨?_, ?_, ?_, ?_⟩
  · simp [formatTicketContext, ticketContextBase, withComments, h1, hemp, hemp3, List.take_take]
  · simp [formatTicketContext, h1, hemp]
  · intro s hs
    simp only [truncateContent]
    rw [if_pos hs]
  · intro s hs
    simp only [truncateContent]
    rw [if_neg (by omega)]

set_option maxRecDepth 4000 in
/-- C8 witness: a 4-comment list renders like its 3-comment truncation, a
201-character body is truncated, a short body is kept verbatim. -/
theorem comments_capped_and_truncated_witness :
    (3 < ([⟨some "u", some "c1"⟩, ⟨some "u", some "c2"⟩, ⟨some "u", some "c3"⟩,
           ⟨some "u", some "c4"⟩] : List TicketComment).length) ∧
    formatTicketContext (withComments emptyTd (some [⟨some "u", some "c1"⟩, ⟨some "u", some "c2"⟩,
        ⟨some "u", some "c3"⟩, ⟨some "u", some "c4"⟩])) =
      formatTicketContext (withComments (withComments emptyTd (some [⟨some "u", some "c1"⟩,
        ⟨some "u", some "c2"⟩, ⟨some "u", some "c3"⟩, ⟨some "u", some "c4"⟩]))
        (some ([⟨some "u", some "c1"⟩, ⟨some "u", some "c2"⟩, ⟨some "u", some "c3"⟩,
          ⟨some "u", some "c4"⟩].take 3))) ∧
    truncateContent (String.mk (List.replicate 201 'x')) =
      (String.mk (List.replicate 201 'x')).take 200 ++ "..." ∧
    truncateContent "short" = "short" := by
  have h := comments_capped_and_truncated
    (withComments emptyTd (some [⟨some "u", some "c1"⟩, ⟨some "u", some "c2"⟩,
      ⟨some "u", some "c3"⟩, ⟨some "u", some "c4"⟩]))
    [⟨some "u", some "c1"⟩, ⟨some "u", some "c2"⟩, ⟨some "u", some "c3"⟩, ⟨some "u", some "c4"⟩]
    rfl (by decide)
  exact ⟨by decide, h.1, h.2.2.1 _ (by decide), h.2.2.2 "short" (by decide)⟩

/-! ## Claim C3 -/

/-- The built prompt for the default persona starts with the letter Y of the
persona introduction (You are ...), for every ticket data and analysis type. -/
theorem build_prompt_head (td : TicketData) (a : String) :
    (build_analysis_prompt td a Persona.SENIOR_QA).data.head? = some 'Y' := by
  repeat apply data_head_append
  rfl

/-- The fallback prompt starts with the letter A of Analyze, for every ticket
data and analysis type. -/
theorem fallback_prompt_head (td : TicketData) (a : String) :
    (getFallbackPrompt td a).data.head? = some 'A' := by
  repeat apply data_head_append
  rfl

/-- C3 counterexample: a ticket dictionary holding only the ticket key does
NOT yield the fallback prompt — `build_analysis_prompt` succeeds and returns
the standard five-block prompt. -/
theorem only_key_not_fallback :
    build_analysis_prompt (onlyKeyTd "QA-1") "test-cases" Persona.SENIOR_QA ≠
      getFallbackPrompt (onlyKeyTd "QA-1") "test-cases" := by
  exact ne_of_data_head _ _ 'Y' 'A' (build_prompt_head _ _) (fallback_prompt_head _ _)
    (by decide)

/-- C3 (amended): `buildAnalysisPrompt` is total on ticket-data dictionaries,
and a dictionary holding only the ticket key yields the standard five-block
prompt built with placeholder defaults — containing the ticket key but
distinct from the fallback prompt, which is reserved for construction
failures that cannot arise on dictionary input. -/
theorem only_key_standard_prompt (k a : String) :
    build_analysis_prompt (onlyKeyTd k) a Persona.SENIOR_QA =
      seniorQaContext.introduction ++ "\n\n"
        ++ ((defineTemplates.lookup a).getD defaultTpl).instructions ++ "\n\n"
        ++ formatTicketContext (onlyKeyTd k) ++ "\n\n"
        ++ ((defineTemplates.lookup a).getD defaultTpl).output_format ++ "\n\n"
        ++ seniorQaContext.style_guide ∧
    (∃ pre post, build_analysis_prompt (onlyKeyTd k) a Persona.SENIOR_QA = pre ++ (k ++ post)) ∧
    build_analysis_prompt (onlyKeyTd k) a Persona.SENIOR_QA ≠ getFallbackPrompt (onlyKeyTd k) a := by
  have h1 : build_analysis_prompt (onlyKeyTd k) a Persona.SENIOR_QA =
      seniorQaContext.introduction ++ "\n\n"
        ++ ((defineTemplates.lookup a).getD defaultTpl).instructions ++ "\n\n"
        ++ formatTicketContext (onlyKeyTd k) ++ "\n\n"
        ++ ((defineTemplates.lookup a).getD defaultTpl).output_format ++ "\n\n"
        ++ seniorQaContext.style_guide := rfl
  have hfmt : formatTicketContext (onlyKeyTd k) =
      "\n**Ticket Information:**\n- **Key:** " ++ k ++ "\n- **Title:** "
        ++ "No title provided" ++ "\n- **Type:** " ++ "story" ++ "\n- **Description:** "
        ++ "No description available" ++ "\n" := rfl
  refine ⟨h1, ?_, ?_⟩
  · refine ⟨seniorQaContext.introduction ++ "\n\n"
        ++ ((defineTemplates.lookup a).getD defaultTpl).instructions ++ "\n\n"
        ++ "\n**Ticket Information:**\n- **Key:** ",
      "\n- **Title:** " ++ "No title provided" ++ "\n- **Type:** " ++ "story"
        ++ "\n- **Description:** " ++ "No description available" ++ "\n" ++ "\n\n"
        ++ ((defineTemplates.lookup a).getD defaultTpl).output_format ++ "\n\n"
        ++ seniorQaContext.style_guide, ?_⟩
    rw [h1, hfmt]
    simp only [String.append_assoc]
  · exact ne_of_data_head _ _ 'Y' 'A' (build_prompt_head _ _) (fallback_prompt_head _ _)
      (by decide)

/-! ## Claim C1 -/

/-- C1 counterexample: the story-analysis handler has no exception boundary —
a model-call exception propagates to the caller instead of being converted to
an error string. -/
theorem story_handler_propagates :
    storyAnalysisHandle (fun _ => Except.error "boom") (fun _ => Except.ok []) emptyTd =
      Except.error "boom" := rfl

/-- Pulling the constructor out of a two-way branch. -/
theorem ok_ite (c : Prop) [Decidable c] (a b : String) :
    (if c then (Except.ok a : Except String String) else Except.ok b) =
      Except.ok (if c then a else b) := by
  split <;> rfl

/-- C1 (amended): the four per-ticket handlers (test cases, comment summary,
root cause, reproduction steps) and the epic handler always return normally,
converting a model-call exception into `Error generating <kind> for
<quoted key>: <message>` (the epic handler instead uses `Error analyzing epic
<key>: <message>`); the story-analysis handler alone propagates model-call
exceptions to its caller. -/
theorem handlers_error_boundaries (ai : Option AskFn) (jira : Option FetchFn)
    (jfix : FixVersionFn) (jql : JqlFn) (fetch : DetailsFn) (ask : AskFn)
    (rd : TicketData) (cs : List TicketComment) (e : String) :
    (∃ s, handle_test_cases ai rd = Except.ok s) ∧
    (∃ s, handle_root_cause ai rd = Except.ok s) ∧
    (∃ s, handle_reproduction_steps ai rd = Except.ok s) ∧
    (∃ s, handle_comment_summary ai jira rd = Except.ok s) ∧
    (∃ s, handle_epic_analysis jql fetch ask rd = Except.ok s) ∧
    handle_test_cases (some fun _ => Except.error e) rd =
      Except.ok (errGen "test cases" (rd.ticketKey.getD "") e) ∧
    handle_root_cause (some fun _ => Except.error e) rd =
      Except.ok (errGen "root cause analysis" (rd.ticketKey.getD "") e) ∧
    handle_reproduction_steps (some fun _ => Except.error e) rd =
      Except.ok (errGen "reproduction steps" (rd.ticketKey.getD "") e) ∧
    (rd.comments = some cs → cs ≠ [] →
      handle_comment_summary (some fun _ => Except.error e) jira rd =
        Except.ok (errGen "comment summary" (rd.ticketKey.getD "") e)) ∧
    handle_epic_analysis (fun _ => Except.ok []) (fun _ => Except.ok ⟨none, none, none⟩)
      (fun _ => Except.error e) rd =
      Except.ok ("Error analyzing epic " ++ pyStr (pyOr rd.epicKey rd.ticketKey) ++ ": " ++ e) ∧
    storyAnalysisHandle (fun _ => Except.error e) jfix rd = Except.error e := by
  refine ⟨?_, ?_, ?_, ?_, ⟨_, rfl⟩, rfl, rfl, rfl, ?_, rfl, rfl⟩
  · cases ai with
    | none => exact ⟨_, rfl⟩
    | some f =>
      simp only [handle_test_cases]
      cases f (build_test_cases_prompt rd Persona.SENIOR_QA) with
      | ok r => exact ⟨_, ok_ite _ _ _⟩
      | error e2 => exact ⟨_, rfl⟩
  · cases ai with
    | none => exact ⟨_, rfl⟩
    | some f =>
      simp only [handle_root_cause]
      cases f (build_root_cause_prompt rd Persona.TECHNICAL_LEADER) with
      | ok r => exact ⟨_, ok_ite _ _ _⟩
      | error e2 => exact ⟨_, rfl⟩
  · cases ai with
    | none => exact ⟨_, rfl⟩
    | some f =>
      simp only [handle_reproduction_steps]
      cases f (build_reproduction_steps_prompt rd Persona.TECHNICAL_LEADER) with
      | ok r => exact ⟨_, ok_ite _ _ _⟩
      | error e2 => exact ⟨_, rfl⟩
  · simp only [handle_comment_summary]
    repeat' split
    all_goals exact ⟨_, rfl⟩
  · intro h1 h2
    have hemp : cs.isEmpty = false := by cases cs with
      | nil => exact absurd rfl h2
      | cons a l => rfl
    simp [handle_comment_summary, h1, hemp]

/-- C1 witness: the comment-summary error-format conjunct at a request
carrying one comment. -/
theorem handlers_error_boundaries_witness :
    (withComments emptyTd (some [⟨some "u", some "hi"⟩])).comments = some [⟨some "u", some "hi"⟩] ∧
    handle_comment_summary (some fun _ => Except.error "boom") none
      (withComments emptyTd (some [⟨some "u", some "hi"⟩])) =
      Except.ok (errGen "comment summary" "" "boom") := by
  have h := handlers_error_boundaries none none (fun _ => Except.ok [])
    (fun _ => Except.ok []) (fun _ => Except.ok ⟨none, none, none⟩) (fun _ => Except.ok "")
    (withComments emptyTd (some [⟨some "u", some "hi"⟩])) [⟨some "u", some "hi"⟩] "boom"
  exact ⟨rfl, h.2.2.2.2.2.2.2.2.1 rfl (by simp)⟩

/-! ## Claim C2 -/

/-- C2 counterexample: `qa_claim_ticket` has no exception boundary — an HTTP
failure in the first workflow step escapes to the caller as a raw exception
instead of an error envelope. -/
theorem claim_ticket_propagates :
    qa_claim_ticket (fun _ => some "HTTP 500 Server Error") "T-1" "alice" =
      Except.error (PyErr.httpError "HTTP 500 Server Error") := rfl

/-- C2 (amended): tools with a `try`/`except` boundary (get-issue-details,
transition-ticket) always deliver a status envelope with status success or
error and an error string on failure; `qa_claim_ticket` delivers the success
envelope only on full success and otherwise re-raises the client exception to
its caller. -/
theorem tool_envelopes_mixed {α : Type} (g : String → Except String α) (tr : Tracker)
    (k u t : String) :
    (∃ env : IssueEnvelope α, qa_get_issue_details g k = Except.ok env ∧
      (env.status = "success" ∨ env.status = "error") ∧
      (env.status = "error" → env.error.isSome = true)) ∧
    (∃ env : TransitionEnvelope, qa_transition_ticket tr k t = Except.ok env ∧
      (env.status = "success" ∨ env.status = "error") ∧
      (env.status = "error" → env.error.isSome = true)) ∧
    qa_claim_ticket allOkTr k u =
      Except.ok ⟨k, u, ["assigned", "validator_set", "test_result_in_progress"], "success"⟩ ∧
    (∀ e, (claim_for_qa tr k u).raised = some e → qa_claim_ticket tr k u = Except.error e) := by
  refine ⟨?_, ?_, rfl, ?_⟩
  · cases hg : g k with
    | ok v =>
      exact ⟨⟨"success", none, some v⟩, by simp [qa_get_issue_details, hg], Or.inl rfl,
        by intro hcontra; simp at hcontra⟩
    | error m =>
      exact ⟨⟨"error", some m, none⟩, by simp [qa_get_issue_details, hg], Or.inr rfl,
        fun _ => rfl⟩
  · cases hq : (transition_issue tr k t).2 with
    | ok v =>
      exact ⟨⟨"success", none, some k, some t⟩, by simp [qa_transition_ticket, hq], Or.inl rfl,
        by intro hcontra; simp at hcontra⟩
    | error pe =>
      cases pe with
      | valueError m =>
        exact ⟨⟨"error", some m, none, none⟩, by simp [qa_transition_ticket, hq], Or.inr rfl,
          fun _ => rfl⟩
      | httpError m =>
        exact ⟨⟨"error", some ("Failed to transition: " ++ m), none, none⟩,
          by simp [qa_transition_ticket, hq], Or.inr rfl, fun _ => rfl⟩
  · intro e he
    simp [qa_claim_ticket, he]

/-- C2 witness: a failing tracker makes `qa_claim_ticket` re-raise. -/
theorem tool_envelopes_mixed_witness :
    (claim_for_qa (fun _ => some "boom") "T-1" "alice").raised =
      some (PyErr.httpError "boom") ∧
    qa_claim_ticket (fun _ => some "boom") "T-1" "alice" =
      Except.error (PyErr.httpError "boom") := by
  refine ⟨rfl, ?_⟩
  exact (tool_envelopes_mixed (fun s => (Except.ok s : Except String String))
    (fun _ => some "boom") "T-1" "alice" "t").2.2.2 (PyErr.httpError "boom") rfl

/-! ## Claim C9 -/

/-- C9: when the tracker returns more than 20 issues for an epic, the handler
fetches details for exactly the first 20 (in the returned order) and renders
exactly 20 bullet lines, one per processed issue, into the prompt. -/
theorem epic_caps_at_twenty (issues : List EpicIssue) (d : Option String → ChildDetails)
    (ask : AskFn) (rd : TicketData) (h : 20 < issues.length) :
    (handle_epic_analysis_run (fun _ => Except.ok issues) (fun kk => Except.ok (d kk)) ask rd).fetched
      = (issues.take 20).map EpicIssue.key ∧
    (handle_epic_analysis_run (fun _ => Except.ok issues) (fun kk => Except.ok (d kk)) ask rd).fetched.length
      = 20 ∧
    (handle_epic_analysis_run (fun _ => Except.ok issues) (fun kk => Except.ok (d kk)) ask rd).bulletLines
      = ((issues.take 20).map (mkEpicInfo d)).map epicBullet ∧
    (handle_epic_analysis_run (fun _ => Except.ok issues) (fun kk => Except.ok (d kk)) ask rd).bulletLines.length
      = 20 := by
  have hlen : (issues.take 20).length = 20 := by
    rw [List.length_take]
    omega
  have hloop := epicFetchLoop_ok d (issues.take 20)
  simp only [handle_epic_analysis_run, hloop]
  refine ⟨trivial, by simp; omega, trivial, by simp; omega⟩

/-- C9 witness at a 21-issue tracker result. -/
theorem epic_caps_at_twenty_witness :
    20 < ((List.range 21).map (fun n => EpicIssue.mk (some (toString n)))).length ∧
    (handle_epic_analysis_run
        (fun _ => Except.ok ((List.range 21).map (fun n => EpicIssue.mk (some (toString n)))))
        (fun _ => Except.ok (ChildDetails.mk none none none))
        (fun _ => Except.ok "ok") emptyTd).fetched.length = 20 := by
  have h : 20 < ((List.range 21).map (fun n => EpicIssue.mk (some (toString n)))).length := by
    simp
  exact ⟨h, (epic_caps_at_twenty _ _ _ _ h).2.1⟩

end QaMcp
